import Mathlib

/-!
Verification of the pit-stop strategy calculator
(`app/services/strategy/pit_stop/calculator.py`).

The calculator is a pure computation over the lap records and pit-stop
records supplied for one driver in one race.  We embed it shallowly:
Python floats become exact rationals (`ℚ`), Python ints become `Int`,
the `ValueError` raised on empty telemetry (the `NoTelemetryError` of
the specification) becomes the `Except.error` branch, and the
`detailed_analysis` dictionary (whose keys are fixed) becomes a record.
-/

/-- One lap record, mirroring the fields of the `LapData` ORM model that
the calculator reads. -/
structure LapData where
  lap_number : Int
  position : Int
  lap_time_seconds : ℚ
  tire_compound : String
  tire_age : Int
deriving DecidableEq

/-- One pit-stop record, mirroring the fields of the `PitStop` ORM model
that the calculator reads (only `lap` is consulted). -/
structure PitStop where
  stop_number : Int
  lap : Int
  duration_seconds : ℚ
deriving DecidableEq

/-- The tire-degradation summary returned by `_analyze_tire_degradation`
(`none` models the empty dictionary returned for fewer than two laps). -/
structure TireDegradation where
  first_lap_time : ℚ
  last_lap_time : ℚ
  degradation_seconds : ℚ
  degradation_percentage : ℚ
deriving DecidableEq

/-- The `detailed_analysis` dictionary of the result; its keys are fixed
in the source, so it is embedded as a record. -/
structure DetailedAnalysis where
  total_laps : Nat
  original_tire_strategy : String
  alternative_tire_strategy : String
  tire_degradation : Option TireDegradation
  competitive_context : String
deriving DecidableEq

/-- Result record of a simulation, mirroring the `PitStopSimulation`
dataclass of the source. -/
structure PitStopSimulation where
  driver_id : Int
  race_id : Int
  scenario_name : String
  original_stop_lap : Int
  alternative_stop_lap : Int
  original_position_final : Int
  alternative_position_final : Int
  position_gain : Int
  time_loss_at_stop : ℚ
  time_gain_after_stop : ℚ
  confidence_score : ℚ
  recommendation : String
  detailed_analysis : DetailedAnalysis
deriving DecidableEq

/-- Round to the nearest integer, ties to the even integer; this is the
rounding performed by the Python format specifier `:.0f` on an exact
value. -/
def roundHalfEven (q : ℚ) : Int :=
  if q - ⌊q⌋ < 1/2 then ⌊q⌋
  else if q - ⌊q⌋ > 1/2 then ⌊q⌋ + 1
  else if ⌊q⌋ % 2 = 0 then ⌊q⌋ else ⌊q⌋ + 1

/-- Rendering of a number by the Python format specifier `:.0f`
(negative values that round to zero render as `-0`). -/
def formatDotZero (q : ℚ) : String :=
  if roundHalfEven q = 0 ∧ q < 0 then "-0" else toString (roundHalfEven q)

/-- `PitStopStrategyCalculator._get_position_at_lap`: scan the lap
records from the end and return the position of the first one whose lap
number is at most `target_lap`; fall back to the first record (or to 20
on an empty list). -/
def _get_position_at_lap (lap_data : List LapData) (target_lap : Int) : Int :=
  match lap_data.reverse.find? (fun lap => lap.lap_number ≤ target_lap) with
  | some lap => lap.position
  | none =>
    match lap_data with
    | [] => 20
    | first :: _ => first.position

/-- `PitStopStrategyCalculator._simulate_position_after_stop`. -/
def _simulate_position_after_stop (lap_data : List LapData) (stop_lap : Int)
    (total_laps : Int) : Int :=
  let position_at_stop := _get_position_at_lap lap_data stop_lap
  let position_after_stop := min (position_at_stop + 2) 20
  let position_gain_from_fresh_tires := 1
  let final_position := max (position_after_stop - position_gain_from_fresh_tires) 1
  final_position

/-- `PitStopStrategyCalculator._estimate_pit_stop_loss`. -/
def _estimate_pit_stop_loss (lap_data : List LapData) (stop_lap : Int) : ℚ :=
  let avg_lap_time := (lap_data.map LapData.lap_time_seconds).sum / (lap_data.length : ℚ)
  22.0 + (avg_lap_time * 0.15)

/-- `PitStopStrategyCalculator._estimate_fresh_tire_gain`. -/
def _estimate_fresh_tire_gain (lap_data : List LapData) (stop_lap : Int) : ℚ :=
  let avg_lap_time := (lap_data.map LapData.lap_time_seconds).sum / (lap_data.length : ℚ)
  let fresh_tire_gain := avg_lap_time * 0.025
  let laps_with_gain : ℚ := 15
  fresh_tire_gain * laps_with_gain

/-- `PitStopStrategyCalculator._calculate_confidence`. -/
def _calculate_confidence (position_gain : Int) (time_loss : ℚ) (time_gain : ℚ) : ℚ :=
  let position_confidence : ℚ := min ((position_gain : ℚ) * 25) 100
  let time_confidence : ℚ := if time_loss > 0 then time_gain / time_loss * 100 else 50
  let confidence := (position_confidence + time_confidence) / 2
  min confidence 100

/-- `PitStopStrategyCalculator._generate_recommendation` (the
`original_stop_lap` argument is `None` when the driver made no real
stop; it is never read). -/
def _generate_recommendation (position_gain : Int) (original_stop_lap : Option Int)
    (alternative_stop_lap : Int) (confidence_score : ℚ) : String :=
  if position_gain > 0 then
    "Pit stop at lap " ++ toString alternative_stop_lap ++ " could gain " ++
      toString position_gain ++ " positions " ++ "(confidence: " ++
      formatDotZero confidence_score ++ "%). Recommended timing."
  else if position_gain = 0 then
    "Pit stop at lap " ++ toString alternative_stop_lap ++ " offers similar results " ++
      "to current strategy. Consider race circumstances."
  else
    "Pit stop at lap " ++ toString alternative_stop_lap ++ " could cost " ++
      toString position_gain.natAbs ++ " positions. " ++ "Current strategy preferred."

/-- `PitStopStrategyCalculator._analyze_tire_strategy`. -/
def _analyze_tire_strategy (lap_data : List LapData) (stop_lap : Int) : String :=
  let before_stop := lap_data.filter (fun lap => lap.lap_number ≤ stop_lap)
  let after_stop := lap_data.filter (fun lap => stop_lap < lap.lap_number)
  let before_compound :=
    match before_stop.getLast? with
    | some lap => lap.tire_compound
    | none => "Unknown"
  let after_compound :=
    match after_stop.head? with
    | some lap => lap.tire_compound
    | none => "Unknown"
  before_compound ++ " â†’ " ++ after_compound

/-- `PitStopStrategyCalculator._analyze_tire_degradation`. -/
def _analyze_tire_degradation (lap_data : List LapData) : Option TireDegradation :=
  if lap_data.length < 2 then none
  else
    match lap_data.head?, lap_data.getLast? with
    | some first, some last =>
      let degradation := last.lap_time_seconds - first.lap_time_seconds
      some
        { first_lap_time := first.lap_time_seconds
          last_lap_time := last.lap_time_seconds
          degradation_seconds := degradation
          degradation_percentage := degradation / first.lap_time_seconds * 100 }
    | _, _ => none

/-- `PitStopStrategyCalculator.calculate_alternative_strategy`, with the
telemetry fetched by the repository collaborators passed in as the lists
`driver_laps` and `actual_pit_stops` (ordered ascending, as the
repository queries order them).  The `ValueError` raised on empty
telemetry is the `Except.error` branch. -/
def calculate_alternative_strategy (race_id : Int) (driver_id : Int)
    (alternative_stop_lap : Int) (driver_laps : List LapData)
    (actual_pit_stops : List PitStop) : Except String PitStopSimulation :=
  if driver_laps = [] then
    Except.error ("No lap data found for driver " ++ toString driver_id ++
      " in race " ++ toString race_id)
  else
    let original_stop_lap : Option Int := actual_pit_stops.head?.map PitStop.lap
    let original_final_position :=
      _get_position_at_lap driver_laps (driver_laps.length : Int)
    let alternative_final_position :=
      _simulate_position_after_stop driver_laps alternative_stop_lap
        (driver_laps.length : Int)
    let position_gain := original_final_position - alternative_final_position
    let time_loss_at_stop := _estimate_pit_stop_loss driver_laps alternative_stop_lap
    let time_gain_after_stop := _estimate_fresh_tire_gain driver_laps alternative_stop_lap
    let confidence_score :=
      _calculate_confidence position_gain time_loss_at_stop time_gain_after_stop
    let recommendation :=
      _generate_recommendation position_gain original_stop_lap alternative_stop_lap
        confidence_score
    Except.ok
      { driver_id := driver_id
        race_id := race_id
        scenario_name := "Pit Stop Strategy"
        original_stop_lap := original_stop_lap.getD 0
        alternative_stop_lap := alternative_stop_lap
        original_position_final := original_final_position
        alternative_position_final := alternative_final_position
        position_gain := position_gain
        time_loss_at_stop := time_loss_at_stop
        time_gain_after_stop := time_gain_after_stop
        confidence_score := confidence_score
        recommendation := recommendation
        detailed_analysis :=
          { total_laps := driver_laps.length
            original_tire_strategy :=
              match original_stop_lap with
              | some l => if l ≠ 0 then _analyze_tire_strategy driver_laps l else "Unknown"
              | none => "Unknown"
            alternative_tire_strategy :=
              _analyze_tire_strategy driver_laps alternative_stop_lap
            tire_degradation := _analyze_tire_degradation driver_laps
            competitive_context := "Lahir simulation vs 1 pit stop leader" } }

/-- Position lookup as worded by the specification: the position of the
last lap record whose lap number is at most the target, saturating to
the nearest available record when the target lies outside the recorded
range. -/
def specPositionLookup (laps : List LapData) (target : Int) : Int :=
  match (laps.filter (fun lap => lap.lap_number ≤ target)).getLast? with
  | some lap => lap.position
  | none =>
    match laps.head? with
    | some lap => lap.position
    | none => 20

/-- Arithmetic mean of `lap_time_seconds` over the given records. -/
def avgLapTime (laps : List LapData) : ℚ :=
  (laps.map LapData.lap_time_seconds).sum / (laps.length : ℚ)

/-- Recommendation template for a positive position gain, as worded by
the specification. -/
def gainTemplate (alternative_stop_lap : Int) (position_gain : Int)
    (confidence_score : ℚ) : String :=
  "Pit stop at lap " ++ toString alternative_stop_lap ++ " could gain " ++
    toString position_gain ++ " positions " ++ "(confidence: " ++
    formatDotZero confidence_score ++ "%). Recommended timing."

/-- Recommendation template for a zero position gain, as worded by the
specification. -/
def similarTemplate (alternative_stop_lap : Int) : String :=
  "Pit stop at lap " ++ toString alternative_stop_lap ++ " offers similar results " ++
    "to current strategy. Consider race circumstances."

/-- Recommendation template for a negative position gain, as worded by
the specification; `magnitude` is the absolute value of the gain. -/
def costTemplate (alternative_stop_lap : Int) (magnitude : Nat) : String :=
  "Pit stop at lap " ++ toString alternative_stop_lap ++ " could cost " ++
    toString magnitude ++ " positions. " ++ "Current strategy preferred."

/-- A single-lap telemetry sample: one lap of 90 seconds ending in
position 20. -/
def lapsA : List LapData :=
  [{ lap_number := 1, position := 20, lap_time_seconds := 90,
     tire_compound := "SOFT", tire_age := 0 }]

/-- A two-lap telemetry sample with consecutive lap numbers 1 and 2. -/
def lapsB : List LapData :=
  [{ lap_number := 1, position := 5, lap_time_seconds := 90,
     tire_compound := "SOFT", tire_age := 0 },
   { lap_number := 2, position := 6, lap_time_seconds := 92,
     tire_compound := "SOFT", tire_age := 1 }]

/-- A two-lap telemetry sample whose lap numbers 2 and 3 exceed the
record count (no record for lap 1). -/
def gapLaps : List LapData :=
  [{ lap_number := 2, position := 4, lap_time_seconds := 90,
     tire_compound := "SOFT", tire_age := 0 },
   { lap_number := 3, position := 7, lap_time_seconds := 91,
     tire_compound := "SOFT", tire_age := 1 }]

/-- A two-lap telemetry sample where the driver is 16th at lap 1 and
leads at lap 2, driving the position gain strongly negative. -/
def negLaps : List LapData :=
  [{ lap_number := 1, position := 16, lap_time_seconds := 90,
     tire_compound := "SOFT", tire_age := 0 },
   { lap_number := 2, position := 1, lap_time_seconds := 90,
     tire_compound := "SOFT", tire_age := 1 }]

/-- An all-zero result record, used only as the default of `Option.getD`. -/
def blankSimulation : PitStopSimulation :=
  { driver_id := 0, race_id := 0, scenario_name := "", original_stop_lap := 0,
    alternative_stop_lap := 0, original_position_final := 0,
    alternative_position_final := 0, position_gain := 0, time_loss_at_stop := 0,
    time_gain_after_stop := 0, confidence_score := 0, recommendation := "",
    detailed_analysis :=
      { total_laps := 0, original_tire_strategy := "",
        alternative_tire_strategy := "", tire_degradation := none,
        competitive_context := "" } }

/-- The result record produced for the sample `lapsA`. -/
def simA : PitStopSimulation :=
  (calculate_alternative_strategy 1 1 1 lapsA []).toOption.getD blankSimulation

lemma simA_spec : calculate_alternative_strategy 1 1 1 lapsA [] = Except.ok simA := rfl

lemma calc_error_of_nil (race_id driver_id alternative_stop_lap : Int)
    (actual_pit_stops : List PitStop) :
    calculate_alternative_strategy race_id driver_id alternative_stop_lap []
      actual_pit_stops =
      Except.error ("No lap data found for driver " ++ toString driver_id ++
        " in race " ++ toString race_id) := rfl

lemma calc_eq_ok (race_id driver_id alternative_stop_lap : Int)
    (driver_laps : List LapData) (actual_pit_stops : List PitStop)
    (h : driver_laps ≠ []) :
    calculate_alternative_strategy race_id driver_id alternative_stop_lap
      driver_laps actual_pit_stops =
      Except.ok
        { driver_id := driver_id
          race_id := race_id
          scenario_name := "Pit Stop Strategy"
          original_stop_lap := (actual_pit_stops.head?.map PitStop.lap).getD 0
          alternative_stop_lap := alternative_stop_lap
          original_position_final :=
            _get_position_at_lap driver_laps (driver_laps.length : Int)
          alternative_position_final :=
            _simulate_position_after_stop driver_laps alternative_stop_lap
              (driver_laps.length : Int)
          position_gain :=
            _get_position_at_lap driver_laps (driver_laps.length : Int) -
              _simulate_position_after_stop driver_laps alternative_stop_lap
                (driver_laps.length : Int)
          time_loss_at_stop := _estimate_pit_stop_loss driver_laps alternative_stop_lap
          time_gain_after_stop :=
            _estimate_fresh_tire_gain driver_laps alternative_stop_lap
          confidence_score :=
            _calculate_confidence
              (_get_position_at_lap driver_laps (driver_laps.length : Int) -
                _simulate_position_after_stop driver_laps alternative_stop_lap
                  (driver_laps.length : Int))
              (_estimate_pit_stop_loss driver_laps alternative_stop_lap)
              (_estimate_fresh_tire_gain driver_laps alternative_stop_lap)
          recommendation :=
            _generate_recommendation
              (_get_position_at_lap driver_laps (driver_laps.length : Int) -
                _simulate_position_after_stop driver_laps alternative_stop_lap
                  (driver_laps.length : Int))
              (actual_pit_stops.head?.map PitStop.lap) alternative_stop_lap
              (_calculate_confidence
                (_get_position_at_lap driver_laps (driver_laps.length : Int) -
                  _simulate_position_after_stop driver_laps alternative_stop_lap
                    (driver_laps.length : Int))
                (_estimate_pit_stop_loss driver_laps alternative_stop_lap)
                (_estimate_fresh_tire_gain driver_laps alternative_stop_lap))
          detailed_analysis :=
            { total_laps := driver_laps.length
              original_tire_strategy :=
                match actual_pit_stops.head?.map PitStop.lap with
                | some l =>
                  if l ≠ 0 then _analyze_tire_strategy driver_laps l else "Unknown"
                | none => "Unknown"
              alternative_tire_strategy :=
                _analyze_tire_strategy driver_laps alternative_stop_lap
              tire_degradation := _analyze_tire_degradation driver_laps
              competitive_context := "Lahir simulation vs 1 pit stop leader" } } := by
  unfold calculate_alternative_strategy
  rw [if_neg h]

lemma find_rev_eq {α : Type} (p : α → Bool) :
    ∀ l : List α, l.reverse.find? p = (l.filter p).getLast?
  | [] => rfl
  | a :: t => by
    rw [List.reverse_cons, List.find?_append, find_rev_eq p t, List.filter_cons]
    cases h : p a
    · simp [h, List.find?]
    · cases hx : (t.filter p).getLast? <;>
        simp [h, hx, List.getLast?_cons, List.find?]

lemma get_position_eq_spec (laps : List LapData) (t : Int) :
    _get_position_at_lap laps t = specPositionLookup laps t := by
  unfold _get_position_at_lap specPositionLookup
  rw [find_rev_eq]
  cases hx : (laps.filter (fun lap => lap.lap_number ≤ t)).getLast? with
  | some lap => rfl
  | none => cases laps <;> rfl

lemma calculate_confidence_le_100 (g : Int) (tl tg : ℚ) :
    _calculate_confidence g tl tg ≤ 100 := by
  unfold _calculate_confidence
  exact min_le_right _ _

lemma calculate_confidence_nonneg (g : Int) (tl tg : ℚ) (hgg : 0 ≤ g)
    (htg : 0 ≤ tg) : 0 ≤ _calculate_confidence g tl tg := by
  unfold _calculate_confidence
  refine le_min ?_ (by norm_num)
  refine div_nonneg (add_nonneg ?_ ?_) (by norm_num)
  · refine le_min ?_ (by norm_num)
    have hq : (0 : ℚ) ≤ (g : ℚ) := by exact_mod_cast hgg
    exact mul_nonneg hq (by norm_num)
  · by_cases htl : tl > 0
    · rw [if_pos htl]
      exact mul_nonneg (div_nonneg htg (le_of_lt htl)) (by norm_num)
    · rw [if_neg htl]
      norm_num

lemma estimate_fresh_tire_gain_nonneg (laps : List LapData) (stop_lap : Int)
    (hlt : ∀ lap ∈ laps, 0 ≤ lap.lap_time_seconds) :
    0 ≤ _estimate_fresh_tire_gain laps stop_lap := by
  unfold _estimate_fresh_tire_gain
  have havg : 0 ≤ (laps.map LapData.lap_time_seconds).sum / (laps.length : ℚ) := by
    refine div_nonneg (List.sum_nonneg ?_) (Nat.cast_nonneg _)
    intro x hx
    obtain ⟨lap, hlap, rfl⟩ := List.mem_map.mp hx
    exact hlt lap hlap
  exact mul_nonneg (mul_nonneg havg (by norm_num)) (by norm_num)

/-- C1: `calculate_alternative_strategy` fails (with the no-telemetry
error message) exactly when `driver_laps` is empty, and returns a
complete result for every non-empty `driver_laps`. -/
theorem calc_fails_iff_no_laps (race_id driver_id alternative_stop_lap : Int)
    (driver_laps : List LapData) (actual_pit_stops : List PitStop) :
    ((calculate_alternative_strategy race_id driver_id alternative_stop_lap
        driver_laps actual_pit_stops).toOption = none ↔ driver_laps = []) ∧
      (driver_laps = [] →
        calculate_alternative_strategy race_id driver_id alternative_stop_lap
          driver_laps actual_pit_stops =
          Except.error ("No lap data found for driver " ++ toString driver_id ++
            " in race " ++ toString race_id)) := by
  refine ⟨⟨?_, ?_⟩, ?_⟩
  · intro hnone
    by_contra h
    rw [calc_eq_ok race_id driver_id alternative_stop_lap driver_laps
      actual_pit_stops h] at hnone
    simp [Except.toOption] at hnone
  · intro h
    subst h
    rw [calc_error_of_nil]
    rfl
  · intro h
    subst h
    exact calc_error_of_nil race_id driver_id alternative_stop_lap actual_pit_stops

theorem calc_fails_iff_no_laps_witness :
    calculate_alternative_strategy 5 7 9 [] [] =
        Except.error "No lap data found for driver 7 in race 5" ∧
      (calculate_alternative_strategy 1 1 1 lapsA []).toOption ≠ none := by
  constructor
  · exact (calc_fails_iff_no_laps 5 7 9 [] []).2 rfl
  · intro hnone
    exact absurd ((calc_fails_iff_no_laps 1 1 1 lapsA []).1.mp hnone) (by decide)

/-- C2: for non-empty telemetry and a positive alternative stop lap, the
alternative final position is the saturating position lookup at the
alternative lap, plus the fixed 2-position loss capped at 20, minus the
fixed 1-position fresh-tire recovery floored at 1; in particular no
error is raised for out-of-range stop laps. -/
theorem alternative_position_final_formula (race_id driver_id alternative_stop_lap : Int)
    (driver_laps : List LapData) (actual_pit_stops : List PitStop)
    (h1 : driver_laps ≠ []) (h2 : 0 < alternative_stop_lap) :
    (calculate_alternative_strategy race_id driver_id alternative_stop_lap
        driver_laps actual_pit_stops).toOption.map
        PitStopSimulation.alternative_position_final =
      some (max (min (specPositionLookup driver_laps alternative_stop_lap + 2) 20 - 1)
        1) := by
  rw [calc_eq_ok race_id driver_id alternative_stop_lap driver_laps actual_pit_stops h1,
    ← get_position_eq_spec driver_laps alternative_stop_lap]
  rfl

theorem alternative_position_final_formula_witness :
    (calculate_alternative_strategy 1 1 50 lapsB []).toOption.map
        PitStopSimulation.alternative_position_final =
      some (max (min (specPositionLookup lapsB 50 + 2) 20 - 1) 1) :=
  alternative_position_final_formula 1 1 50 lapsB [] (by decide) (by decide)

/-- C3 counterexample: with lap numbers 2 and 3 (two records), the
computed original final position is the position at the record whose lap
number equals the record count, namely 4, while the last record has
position 7 — so `original_position_final` is not the last record's
position for every non-empty input. -/
theorem original_position_not_last_on_gap :
    (calculate_alternative_strategy 1 1 1 gapLaps []).toOption.map
        PitStopSimulation.original_position_final = some 4 ∧
      gapLaps.getLast?.map LapData.position = some 7 := by
  constructor <;> decide

/-- C3 (amended): when the lap numbers are exactly 1, 2, ..., n — as the
data model prescribes for a complete telemetry sequence — the original
final position equals the position of the last lap record. -/
theorem original_position_last_of_contiguous (race_id driver_id alternative_stop_lap : Int)
    (driver_laps : List LapData) (actual_pit_stops : List PitStop)
    (h1 : driver_laps ≠ [])
    (h2 : ∀ i (hi : i < driver_laps.length),
      (driver_laps.get ⟨i, hi⟩).lap_number = (i : Int) + 1) :
    (calculate_alternative_strategy race_id driver_id alternative_stop_lap
        driver_laps actual_pit_stops).toOption.map
        PitStopSimulation.original_position_final =
      driver_laps.getLast?.map LapData.position := by
  rw [calc_eq_ok race_id driver_id alternative_stop_lap driver_laps actual_pit_stops h1,
    List.getLast?_eq_getLast driver_laps h1]
  have hlen : 0 < driver_laps.length := List.length_pos.mpr h1
  have hlast : (driver_laps.getLast h1).lap_number = (driver_laps.length : Int) := by
    rw [List.getLast_eq_get]
    have h3 := h2 (driver_laps.length - 1) (by omega)
    have h4 : ((driver_laps.length - 1 : Nat) : Int) + 1 = (driver_laps.length : Int) := by
      omega
    exact h3.trans h4
  have hfind : driver_laps.reverse.find?
      (fun lap => lap.lap_number ≤ (driver_laps.length : Int)) =
      some (driver_laps.getLast h1) := by
    have hrev : driver_laps.reverse =
        driver_laps.getLast h1 :: driver_laps.dropLast.reverse := by
      conv_lhs => rw [← List.dropLast_append_getLast h1]
      rw [List.reverse_append]
      rfl
    rw [hrev]
    rw [List.find?_cons_of_pos]
    simp [hlast]
  show some (_get_position_at_lap driver_laps (driver_laps.length : Int)) =
    some ((driver_laps.getLast h1).position)
  unfold _get_position_at_lap
  rw [hfind]

theorem original_position_last_of_contiguous_witness :
    (calculate_alternative_strategy 1 1 1 lapsB []).toOption.map
        PitStopSimulation.original_position_final =
      lapsB.getLast?.map LapData.position :=
  original_position_last_of_contiguous 1 1 1 lapsB [] (by decide) (by decide)

/-- C4: the returned `position_gain` equals the difference between the
returned original and alternative final positions, for every input on
which a result is returned. -/
theorem position_gain_is_difference (race_id driver_id alternative_stop_lap : Int)
    (driver_laps : List LapData) (actual_pit_stops : List PitStop) :
    (calculate_alternative_strategy race_id driver_id alternative_stop_lap
        driver_laps actual_pit_stops).toOption.map PitStopSimulation.position_gain =
      (calculate_alternative_strategy race_id driver_id alternative_stop_lap
        driver_laps actual_pit_stops).toOption.map
        (fun s => s.original_position_final - s.alternative_position_final) := by
  by_cases h : driver_laps = []
  · subst h
    rw [calc_error_of_nil]
    rfl
  · rw [calc_eq_ok race_id driver_id alternative_stop_lap driver_laps actual_pit_stops h]
    rfl

/-- C5 counterexample: on telemetry where the driver leads at the end
but was 16th at the alternative stop lap, the confidence score is
negative, so it is not clamped to the interval [0, 100] at the lower
bound. -/
theorem confidence_score_below_zero :
    ((calculate_alternative_strategy 1 1 1 negLaps []).toOption.map
        PitStopSimulation.confidence_score).getD 0 < 0 := by
  rw [calc_eq_ok 1 1 1 negLaps [] (by decide)]
  show _calculate_confidence
      (_get_position_at_lap negLaps (negLaps.length : Int) -
        _simulate_position_after_stop negLaps 1 (negLaps.length : Int))
      (_estimate_pit_stop_loss negLaps 1) (_estimate_fresh_tire_gain negLaps 1) < 0
  have hg : _get_position_at_lap negLaps (negLaps.length : Int) -
      _simulate_position_after_stop negLaps 1 (negLaps.length : Int) = -16 := by decide
  rw [hg]
  have htl : _estimate_pit_stop_loss negLaps 1 = 71/2 := by
    unfold _estimate_pit_stop_loss
    norm_num [negLaps]
  have htg : _estimate_fresh_tire_gain negLaps 1 = 135/4 := by
    unfold _estimate_fresh_tire_gain
    norm_num [negLaps]
  rw [htl, htg]
  unfold _calculate_confidence
  norm_num [min_def]

/-- C5 (amended): the confidence score is never above 100, and it is
also bounded below by 0 whenever the position gain is non-negative and
the lap times are non-negative; for negative position gains the lower
bound can fail. -/
theorem confidence_score_bounds_when_gain_nonneg
    (race_id driver_id alternative_stop_lap : Int)
    (driver_laps : List LapData) (actual_pit_stops : List PitStop)
    (hlt : ∀ lap ∈ driver_laps, 0 ≤ lap.lap_time_seconds)
    (hg : 0 ≤ ((calculate_alternative_strategy race_id driver_id alternative_stop_lap
        driver_laps actual_pit_stops).toOption.map
        PitStopSimulation.position_gain).getD 0) :
    0 ≤ ((calculate_alternative_strategy race_id driver_id alternative_stop_lap
        driver_laps actual_pit_stops).toOption.map
        PitStopSimulation.confidence_score).getD 0 ∧
      ((calculate_alternative_strategy race_id driver_id alternative_stop_lap
        driver_laps actual_pit_stops).toOption.map
        PitStopSimulation.confidence_score).getD 0 ≤ 100 := by
  by_cases h : driver_laps = []
  · subst h
    rw [calc_error_of_nil]
    constructor
    · show (0 : ℚ) ≤ 0
      exact le_refl 0
    · show (0 : ℚ) ≤ 100
      norm_num
  · rw [calc_eq_ok race_id driver_id alternative_stop_lap driver_laps
      actual_pit_stops h] at hg ⊢
    constructor
    · show 0 ≤ _calculate_confidence
        (_get_position_at_lap driver_laps (driver_laps.length : Int) -
          _simulate_position_after_stop driver_laps alternative_stop_lap
            (driver_laps.length : Int))
        (_estimate_pit_stop_loss driver_laps alternative_stop_lap)
        (_estimate_fresh_tire_gain driver_laps alternative_stop_lap)
      refine calculate_confidence_nonneg _ _ _ ?_ ?_
      · exact hg
      · exact estimate_fresh_tire_gain_nonneg driver_laps alternative_stop_lap hlt
    · show _calculate_confidence
        (_get_position_at_lap driver_laps (driver_laps.length : Int) -
          _simulate_position_after_stop driver_laps alternative_stop_lap
            (driver_laps.length : Int))
        (_estimate_pit_stop_loss driver_laps alternative_stop_lap)
        (_estimate_fresh_tire_gain driver_laps alternative_stop_lap) ≤ 100
      exact calculate_confidence_le_100 _ _ _

theorem confidence_score_bounds_when_gain_nonneg_witness :
    0 ≤ ((calculate_alternative_strategy 1 1 1 lapsA []).toOption.map
        PitStopSimulation.confidence_score).getD 0 ∧
      ((calculate_alternative_strategy 1 1 1 lapsA []).toOption.map
        PitStopSimulation.confidence_score).getD 0 ≤ 100 :=
  confidence_score_bounds_when_gain_nonneg 1 1 1 lapsA [] (by decide) (by decide)

/-- C6: the confidence score never exceeds 100, for any input, however
large the position gain. -/
theorem confidence_score_le_hundred (race_id driver_id alternative_stop_lap : Int)
    (driver_laps : List LapData) (actual_pit_stops : List PitStop) :
    ((calculate_alternative_strategy race_id driver_id alternative_stop_lap
        driver_laps actual_pit_stops).toOption.map
        PitStopSimulation.confidence_score).getD 0 ≤ 100 := by
  by_cases h : driver_laps = []
  · subst h
    rw [calc_error_of_nil]
    show (0 : ℚ) ≤ 100
    norm_num
  · rw [calc_eq_ok race_id driver_id alternative_stop_lap driver_laps actual_pit_stops h]
    show _calculate_confidence
      (_get_position_at_lap driver_laps (driver_laps.length : Int) -
        _simulate_position_after_stop driver_laps alternative_stop_lap
          (driver_laps.length : Int))
      (_estimate_pit_stop_loss driver_laps alternative_stop_lap)
      (_estimate_fresh_tire_gain driver_laps alternative_stop_lap) ≤ 100
    exact calculate_confidence_le_100 _ _ _

/-- C7: for non-empty telemetry with average lap time A, the time loss
at the stop is 22.0 + A times 0.15 and the time gain after the stop is
A times 0.025 times 15, independent of the alternative stop lap. -/
theorem time_estimates_from_average (race_id driver_id alternative_stop_lap : Int)
    (driver_laps : List LapData) (actual_pit_stops : List PitStop)
    (h : driver_laps ≠ []) :
    (calculate_alternative_strategy race_id driver_id alternative_stop_lap
        driver_laps actual_pit_stops).toOption.map
        (fun s => (s.time_loss_at_stop, s.time_gain_after_stop)) =
      some (22.0 + avgLapTime driver_laps * 0.15,
        avgLapTime driver_laps * 0.025 * 15) := by
  rw [calc_eq_ok race_id driver_id alternative_stop_lap driver_laps actual_pit_stops h]
  rfl

theorem time_estimates_from_average_witness :
    (calculate_alternative_strategy 1 1 1 lapsB []).toOption.map
        (fun s => (s.time_loss_at_stop, s.time_gain_after_stop)) =
      some (22.0 + avgLapTime lapsB * 0.15, avgLapTime lapsB * 0.025 * 15) :=
  time_estimates_from_average 1 1 1 lapsB [] (by decide)

/-- C8: the recommendation string of a returned result is determined
solely by the sign of its position gain, using the three fixed
templates: the gain template (embedding the alternative lap, the
magnitude and the confidence score) for a positive gain, the
similar-results template (embedding the alternative lap) for a zero
gain, and the cost template (embedding the alternative lap and the
magnitude) for a negative gain. -/
theorem recommendation_selected_by_sign (race_id driver_id alternative_stop_lap : Int)
    (driver_laps : List LapData) (actual_pit_stops : List PitStop)
    (s : PitStopSimulation)
    (h : calculate_alternative_strategy race_id driver_id alternative_stop_lap
      driver_laps actual_pit_stops = Except.ok s) :
    s.recommendation =
      if 0 < s.position_gain then
        gainTemplate s.alternative_stop_lap s.position_gain s.confidence_score
      else if s.position_gain = 0 then similarTemplate s.alternative_stop_lap
      else costTemplate s.alternative_stop_lap s.position_gain.natAbs := by
  have hne : driver_laps ≠ [] := by
    intro hnil
    subst hnil
    rw [calc_error_of_nil] at h
    exact Except.noConfusion h
  rw [calc_eq_ok race_id driver_id alternative_stop_lap driver_laps
    actual_pit_stops hne] at h
  have hs := (Except.ok.inj h).symm
  subst hs
  rfl

theorem recommendation_selected_by_sign_witness :
    simA.recommendation =
      if 0 < simA.position_gain then
        gainTemplate simA.alternative_stop_lap simA.position_gain simA.confidence_score
      else if simA.position_gain = 0 then similarTemplate simA.alternative_stop_lap
      else costTemplate simA.alternative_stop_lap simA.position_gain.natAbs :=
  recommendation_selected_by_sign 1 1 1 lapsA [] simA simA_spec

/-- C9: the calculator is deterministic — two results returned for
identical inputs agree in every field, in particular in the detailed
analysis record. -/
theorem calculate_alternative_strategy_deterministic
    (race_id driver_id alternative_stop_lap : Int)
    (driver_laps : List LapData) (actual_pit_stops : List PitStop)
    (s1 s2 : PitStopSimulation)
    (h1 : calculate_alternative_strategy race_id driver_id alternative_stop_lap
      driver_laps actual_pit_stops = Except.ok s1)
    (h2 : calculate_alternative_strategy race_id driver_id alternative_stop_lap
      driver_laps actual_pit_stops = Except.ok s2) :
    s1 = s2 ∧ s1.detailed_analysis = s2.detailed_analysis := by
  rw [h1] at h2
  have h3 := Except.ok.inj h2
  exact ⟨h3, by rw [h3]⟩

theorem calculate_alternative_strategy_deterministic_witness :
    simA = simA ∧ simA.detailed_analysis = simA.detailed_analysis :=
  calculate_alternative_strategy_deterministic 1 1 1 lapsA [] simA simA
    simA_spec simA_spec

/-- C10: the alternative final position of any returned result lies in
the interval [1, 19] — it can never be 20, because the fixed 1-position
fresh-tire recovery is subtracted after the cap at 20 — while the
original final position can be 20, as the sample `lapsA` shows. -/
theorem alternative_position_final_in_range (race_id driver_id alternative_stop_lap : Int)
    (driver_laps : List LapData) (actual_pit_stops : List PitStop) :
    (1 ≤ ((calculate_alternative_strategy race_id driver_id alternative_stop_lap
          driver_laps actual_pit_stops).toOption.map
          PitStopSimulation.alternative_position_final).getD 1 ∧
        ((calculate_alternative_strategy race_id driver_id alternative_stop_lap
          driver_laps actual_pit_stops).toOption.map
          PitStopSimulation.alternative_position_final).getD 1 ≤ 19) ∧
      (calculate_alternative_strategy 1 1 1 lapsA []).toOption.map
        PitStopSimulation.original_position_final = some 20 := by
  constructor
  · by_cases h : driver_laps = []
    · subst h
      rw [calc_error_of_nil]
      constructor
      · show (1 : Int) ≤ 1
        exact le_refl 1
      · show (1 : Int) ≤ 19
        norm_num
    · rw [calc_eq_ok race_id driver_id alternative_stop_lap driver_laps
        actual_pit_stops h]
      constructor
      · show 1 ≤ max (min (_get_position_at_lap driver_laps alternative_stop_lap + 2)
          20 - 1) 1
        exact le_max_right _ _
      · show max (min (_get_position_at_lap driver_laps alternative_stop_lap + 2)
          20 - 1) 1 ≤ 19
        refine max_le ?_ (by norm_num)
        have hmin := min_le_right
          (_get_position_at_lap driver_laps alternative_stop_lap + 2) 20
        omega
  · decide
